import Mathlib

/-
Verification development for the gmail-assistant repository.

The Python modules src/gmail_auth.py, src/gmail_search.py and
src/gmail_retriever.py are shallowly embedded below.  Remote Gmail API
behaviour, the OAuth consent flow and raw file I/O are external
dependencies; they are modelled by explicit oracle parameters, while every
piece of logic the repository itself implements (part-tree walks, base64url
plus UTF-8(replace) decoding, HTML tag stripping, RFC-2822-style date
parsing, CSV row construction, export orchestration and the authentication
state machine) is translated directly from the source.
-/

namespace GmailAssistant

/-! ## Data model: Gmail message JSON shapes used by the code -/

/-- Header entry of a payload's `headers` list (`{'name': .., 'value': ..}`). -/
structure Header where
  name : String
  value : String
deriving DecidableEq, Repr

/-- The `body` sub-dict of a part: optional base64url `data`, optional `size`. -/
structure PartBody where
  data : Option String
  size : Option Nat
deriving DecidableEq, Repr

/-- A MIME part of a Gmail payload tree.  Each field models the presence or
absence of the corresponding JSON key (`mimeType`, `filename`, `headers`,
`body`, `parts`); `parts` nests further parts. -/
inductive Part : Type where
  | mk (mimeType : Option String) (filename : Option String)
       (headers : Option (List Header)) (body : Option PartBody)
       (parts : Option (List Part)) : Part

def Part.mimeType : Part → Option String
  | .mk mt _ _ _ _ => mt

def Part.filename : Part → Option String
  | .mk _ fn _ _ _ => fn

def Part.headers : Part → Option (List Header)
  | .mk _ _ hs _ _ => hs

def Part.body : Part → Option PartBody
  | .mk _ _ _ b _ => b

def Part.parts : Part → Option (List Part)
  | .mk _ _ _ _ ps => ps

/-- A full Gmail message as handled by gmail_retriever.py: `id` and
`threadId` are accessed unconditionally, the rest through `.get`. -/
structure Message where
  id : String
  threadId : String
  labelIds : Option (List String)
  snippet : Option String
  payload : Option Part

/-! ## decode_base64 (gmail_retriever.py, lines 115-120)

`base64.urlsafe_b64decode(data).decode('utf-8', errors='replace')` with a
catch-all returning `""`.  The stdlib pieces are modelled: ascii encoding of
the str argument, the `-_` → `+/` translation, discarding of non-alphabet
characters, the multiple-of-four padding requirement, quad decoding, and
UTF-8 decoding that substitutes U+FFFD for each maximal invalid subsequence.
Fractional corner cases of binascii (data after inner padding) follow the
leading-data reading; no claim depends on them. -/

def b64CharVal (c : Char) : Option Nat :=
  if 'A' ≤ c ∧ c ≤ 'Z' then some (c.toNat - 65)
  else if 'a' ≤ c ∧ c ≤ 'z' then some (c.toNat - 97 + 26)
  else if '0' ≤ c ∧ c ≤ '9' then some (c.toNat - 48 + 52)
  else if c = '+' then some 62
  else if c = '/' then some 63
  else none

def urlsafeTranslate (c : Char) : Char :=
  if c = '-' then '+' else if c = '_' then '/' else c

/-- Decode one group of 2, 3 or 4 six-bit values into 1, 2 or 3 bytes. -/
def decodeQuad : List Nat → List Nat
  | [a, b] => [a * 4 + b / 16]
  | [a, b, c] => [a * 4 + b / 16, (b % 16) * 16 + c / 4]
  | [a, b, c, d] => [a * 4 + b / 16, (b % 16) * 16 + c / 4, (c % 4) * 64 + d]
  | _ => []

def decodeGroups : List Nat → Option (List Nat)
  | [] => some []
  | a :: b :: c :: d :: rest =>
      (decodeGroups rest).map (fun t => decodeQuad [a, b, c, d] ++ t)
  | [a, b] => some (decodeQuad [a, b])
  | [a, b, c] => some (decodeQuad [a, b, c])
  | [_] => none

/-- Model of `base64.urlsafe_b64decode` on a `str` argument: `none` is any
raised exception (non-ascii input or incorrect padding). -/
def b64decodeBytes (s : String) : Option (List Nat) :=
  if ¬ (s.data.all (fun c => c.toNat < 128)) then none
  else
    let cs := (s.data.map urlsafeTranslate).filter
      (fun c => (b64CharVal c).isSome ∨ c = '=')
    if cs.length % 4 ≠ 0 then none
    else decodeGroups ((cs.takeWhile (fun c => c ≠ '=')).filterMap b64CharVal)

def replacementChar : Char := Char.ofNat 0xFFFD

def isCont (b : Nat) : Bool := 128 ≤ b ∧ b ≤ 191

def cont3ok (b c1 : Nat) : Bool :=
  if b = 224 then 160 ≤ c1 ∧ c1 ≤ 191
  else if b = 237 then 128 ≤ c1 ∧ c1 ≤ 159
  else isCont c1

def cont4ok (b c1 : Nat) : Bool :=
  if b = 240 then 144 ≤ c1 ∧ c1 ≤ 191
  else if b = 244 then 128 ≤ c1 ∧ c1 ≤ 143
  else isCont c1

/-- Model of `bytes.decode('utf-8', errors='replace')`: each maximal invalid
subsequence becomes one U+FFFD. -/
def utf8DecodeReplace : List Nat → List Char
  | [] => []
  | b :: rest =>
    if b < 128 then Char.ofNat b :: utf8DecodeReplace rest
    else if 194 ≤ b ∧ b ≤ 223 then
      match rest with
      | [] => [replacementChar]
      | c1 :: rest2 =>
        if isCont c1 then
          Char.ofNat ((b - 192) * 64 + (c1 - 128)) :: utf8DecodeReplace rest2
        else replacementChar :: utf8DecodeReplace (c1 :: rest2)
    else if 224 ≤ b ∧ b ≤ 239 then
      match rest with
      | [] => [replacementChar]
      | c1 :: rest2 =>
        if cont3ok b c1 then
          match rest2 with
          | [] => [replacementChar]
          | c2 :: rest3 =>
            if isCont c2 then
              Char.ofNat ((b - 224) * 4096 + (c1 - 128) * 64 + (c2 - 128)) ::
                utf8DecodeReplace rest3
            else replacementChar :: utf8DecodeReplace (c2 :: rest3)
        else replacementChar :: utf8DecodeReplace (c1 :: rest2)
    else if 240 ≤ b ∧ b ≤ 244 then
      match rest with
      | [] => [replacementChar]
      | c1 :: rest2 =>
        if cont4ok b c1 then
          match rest2 with
          | [] => [replacementChar]
          | c2 :: rest3 =>
            if isCont c2 then
              match rest3 with
              | [] => [replacementChar]
              | c3 :: rest4 =>
                if isCont c3 then
                  Char.ofNat ((b - 240) * 262144 + (c1 - 128) * 4096 +
                    (c2 - 128) * 64 + (c3 - 128)) :: utf8DecodeReplace rest4
                else replacementChar :: utf8DecodeReplace (c3 :: rest4)
            else replacementChar :: utf8DecodeReplace (c2 :: rest3)
        else replacementChar :: utf8DecodeReplace (c1 :: rest2)
    else replacementChar :: utf8DecodeReplace rest

/-- `decode_base64` of gmail_retriever.py: any exception yields `""`. -/
def decode_base64 (data : String) : String :=
  match b64decodeBytes data with
  | some bs => String.mk (utf8DecodeReplace bs)
  | none => ""

/-! ## HTML tag stripping: `re.sub(r'<[^>]+>', '', html)` -/

/-- One pass of the regex substitution: a `<`, at least one non-`>`
character, then `>` is removed; everything else is kept. -/
def stripTagsGo : List Char → List Char
  | [] => []
  | c :: rest =>
    if c = '<' then
      let inner := rest.takeWhile (fun d => d ≠ '>')
      let after := rest.drop inner.length
      if inner.length = 0 ∨ after.isEmpty then c :: stripTagsGo rest
      else stripTagsGo (after.drop 1)
    else c :: stripTagsGo rest
termination_by l => l.length
decreasing_by
  · simp
  · simp only [List.length_drop, List.length_cons]
    omega
  · simp

def stripHtmlTags (s : String) : String := String.mk (stripTagsGo s.data)

/-! ## extract_email_body (gmail_retriever.py, lines 105-147) -/

/-- Text contributed by a part's own inline body, before its children. -/
def partOwnText (mt : Option String) (b : Option PartBody) : String :=
  match b with
  | some body =>
    match body.data with
    | some d =>
      if mt = some "text/plain" then decode_base64 d
      else if mt = some "text/html" then stripHtmlTags (decode_base64 d)
      else ""
    | none => ""
  | none => ""

mutual

/-- `extract_from_payload`: own text first, then the nested parts. -/
def extract_from_payload : Part → String
  | .mk mt _ _ b ps => partOwnText mt b ++ extractParts ps

def extractParts : Option (List Part) → String
  | none => ""
  | some l => extractPartsList l

def extractPartsList : List Part → String
  | [] => ""
  | p :: rest => extract_from_payload p ++ extractPartsList rest

end

/-- `extract_email_body`: dispatch on the presence of `payload`. -/
def extract_email_body (m : Message) : String :=
  match m.payload with
  | some p => extract_from_payload p
  | none => ""

/-! ## Attachment discovery (gmail_retriever.py, lines 163-176) -/

/-- Attachment descriptor appended by `find_attachments`. -/
structure Attachment where
  filename : String
  mimeType : String
  size : Nat
deriving DecidableEq, Repr

/-- Python guard `'filename' in part and part['filename']`. -/
def hasAttFilename (p : Part) : Bool :=
  match p.filename with
  | some s => s ≠ ""
  | none => false

/-- The dict appended for a matching part. -/
def attachRecord (p : Part) : Attachment :=
  { filename := p.filename.getD "",
    mimeType := p.mimeType.getD "",
    size := match p.body with
      | some b => b.size.getD 0
      | none => 0 }

mutual

/-- `find_attachments`: inspects only the elements of `parts` lists; the
argument part's own filename is never examined. -/
def find_attachments : Part → List Attachment
  | .mk _ _ _ _ none => []
  | .mk _ _ _ _ (some ps) => findAttachmentsList ps

def findAttachmentsList : List Part → List Attachment
  | [] => []
  | p :: rest =>
      (if hasAttFilename p then [attachRecord p] else []) ++
        find_attachments p ++ findAttachmentsList rest

end

mutual

/-- All strict descendants of a part (every element of a `parts` list at any
depth), in the pre-order the source's recursion visits them. -/
def partDescendants : Part → List Part
  | .mk _ _ _ _ none => []
  | .mk _ _ _ _ (some ps) => partListDescendants ps

def partListDescendants : List Part → List Part
  | [] => []
  | p :: rest => p :: (partDescendants p ++ partListDescendants rest)

end

/-! ## Header lookup and date parsing (gmail_retriever.py, lines 159-205) -/

/-- `{h['name']: h['value'] for h in headers}.get(key)`: the last occurrence
of a repeated name wins. -/
def headerLookup (hs : List Header) (key : String) : Option String :=
  (hs.reverse.find? (fun h => h.name = key)).map (fun h => h.value)

/-- Python whitespace characters stripped by `str.strip()` (ASCII range). -/
def isPySpace (c : Char) : Bool :=
  c = ' ' ∨ c = '\t' ∨ c = '\n' ∨ c = '\r' ∨ c = Char.ofNat 11 ∨ c = Char.ofNat 12

/-- `date_str.split(' (')[0]`: the portion before the first `" ("`. -/
def splitParenAux : List Char → List Char
  | [] => []
  | [c] => [c]
  | c1 :: c2 :: rest =>
      if c1 = ' ' ∧ c2 = '(' then [] else c1 :: splitParenAux (c2 :: rest)

/-- `str.strip()` on the character list. -/
def stripChars (l : List Char) : List Char :=
  ((l.dropWhile isPySpace).reverse.dropWhile isPySpace).reverse

/-- Case-insensitive literal prefix match (strptime compiles name patterns
with IGNORECASE). -/
def dropPrefixCIAux : List Char → List Char → Option (List Char)
  | [], inp => some inp
  | _ :: _, [] => none
  | p :: ps, c :: cs =>
      if c.toLower = p.toLower then dropPrefixCIAux ps cs else none

/-- First name of the table matching a prefix of the input; returns its
index and the remaining input. -/
def matchNameIdx : List String → Nat → List Char → Option (Nat × List Char)
  | [], _, _ => none
  | p :: ps, i, inp =>
    match dropPrefixCIAux p.data inp with
    | some rest => some (i, rest)
    | none => matchNameIdx ps (i + 1) inp

def weekdayNames : List String := ["mon", "tue", "wed", "thu", "fri", "sat", "sun"]

def monthNames : List String :=
  ["jan", "feb", "mar", "apr", "may", "jun", "jul", "aug", "sep", "oct", "nov", "dec"]

def digitVal (c : Char) : Option Nat :=
  if '0' ≤ c ∧ c ≤ '9' then some (c.toNat - 48) else none

/-- Greedily read up to `n` leading digits. -/
def takeDigits : Nat → List Char → (List Nat × List Char)
  | 0, inp => ([], inp)
  | _ + 1, [] => ([], [])
  | n + 1, c :: cs =>
    match digitVal c with
    | some d =>
      let r := takeDigits n cs
      (d :: r.1, r.2)
    | none => ([], c :: cs)

def digitsToNat (ds : List Nat) : Nat := ds.foldl (fun a d => a * 10 + d) 0

/-- Format whitespace matches `\s+`: at least one whitespace character. -/
def ws1 (inp : List Char) : Option (List Char) :=
  match inp with
  | c :: cs => if isPySpace c then some (cs.dropWhile isPySpace) else none
  | [] => none

/-- A literal character of the format string. -/
def expectChar (c : Char) (inp : List Char) : Option (List Char) :=
  match inp with
  | d :: rest => if d = c then some rest else none
  | [] => none

/-- Exactly two digits. -/
def parse2d (inp : List Char) : Option (Nat × List Char) :=
  match inp with
  | a :: b :: rest =>
    match digitVal a, digitVal b with
    | some x, some y => some (x * 10 + y, rest)
    | _, _ => none
  | _ => none

/-- The `%z` directive: `Z` (case-sensitive) or
`[+-]\d\d:?\d\d(:?\d\d)?`; returns the offset in seconds.  Fractional
offset seconds (`.ffffff`, never produced by mail headers) are not
modelled and fall to the failure branch via the leftover-input check. -/
def parseZone (inp : List Char) : Option (Int × List Char) :=
  match inp with
  | 'Z' :: rest => some (0, rest)
  | c :: rest =>
    if c = '+' ∨ c = '-' then
      match parse2d rest with
      | none => none
      | some (hh, r1) =>
        let mmRes := match r1 with
          | ':' :: r2 => parse2d r2
          | _ => parse2d r1
        match mmRes with
        | none => none
        | some (mm, r3) =>
          let secRes : Option (Nat × List Char) := match r3 with
            | ':' :: r4 => parse2d r4
            | _ => parse2d r3
          let sr := match secRes with
            | some x => x
            | none => (0, r3)
          let total : Int := (hh * 3600 + mm * 60 + sr.1 : Nat)
          some (if c = '-' then -total else total, sr.2)
    else none
  | [] => none

def isLeap (y : Nat) : Bool := y % 4 = 0 ∧ (y % 100 ≠ 0 ∨ y % 400 = 0)

def daysInMonth (y m : Nat) : Nat :=
  if m = 2 then (if isLeap y then 29 else 28)
  else if m = 4 ∨ m = 6 ∨ m = 9 ∨ m = 11 then 30
  else 31

/-- Zero-padded decimal rendering. -/
def padNum (w n : Nat) : String :=
  let s := toString n
  String.mk (List.replicate (w - s.length) '0') ++ s

/-- `datetime.isoformat()` rendering of a fixed offset (seconds part only
when non-zero). -/
def renderOffset (off : Int) : String :=
  let sign := if off < 0 then "-" else "+"
  let a := off.natAbs
  let hh := a / 3600
  let mm := (a % 3600) / 60
  let ss := a % 60
  sign ++ padNum 2 hh ++ ":" ++ padNum 2 mm ++
    (if ss ≠ 0 then ":" ++ padNum 2 ss else "")

def renderIso (y mo d h mi s : Nat) (off : Int) : String :=
  padNum 4 y ++ "-" ++ padNum 2 mo ++ "-" ++ padNum 2 d ++ "T" ++
    padNum 2 h ++ ":" ++ padNum 2 mi ++ ":" ++ padNum 2 s ++ renderOffset off

/-- The `%a, %d %b %Y` portion: weekday name (parsed but, as in CPython,
never checked against the date), literal comma, then day, month name and
four-digit year separated by runs of whitespace. -/
def parseDMY (inp : List Char) : Option (Nat × Nat × Nat × List Char) :=
  match matchNameIdx weekdayNames 0 inp with
  | none => none
  | some wr =>
    match (expectChar ',' wr.2).bind ws1 with
    | none => none
    | some r3 =>
      let dr := takeDigits 2 r3
      let day := digitsToNat dr.1
      if dr.1.length = 0 ∨ day = 0 ∨ day > 31 then none
      else
        match (ws1 dr.2).bind (matchNameIdx monthNames 0) with
        | none => none
        | some mrp =>
          match ws1 mrp.2 with
          | none => none
          | some r7 =>
            let yr := takeDigits 4 r7
            if yr.1.length ≠ 4 then none
            else some (day, mrp.1 + 1, digitsToNat yr.1, yr.2)

/-- The `%H:%M:%S` portion with the value bounds of CPython's generated
alternations (hour up to 23, minute up to 59, second up to 61 at the
regex level). -/
def parseHMS (inp : List Char) : Option (Nat × Nat × Nat × List Char) :=
  let hr := takeDigits 2 inp
  let hour := digitsToNat hr.1
  if hr.1.length = 0 ∨ hour > 23 then none
  else
    match expectChar ':' hr.2 with
    | none => none
    | some r1 =>
      let mr := takeDigits 2 r1
      let minute := digitsToNat mr.1
      if mr.1.length = 0 ∨ minute > 59 then none
      else
        match expectChar ':' mr.2 with
        | none => none
        | some r2 =>
          let sr := takeDigits 2 r2
          let second := digitsToNat sr.1
          if sr.1.length = 0 ∨ second > 61 then none
          else some (hour, minute, second, sr.2)

/-- Model of `datetime.strptime(s, '%a, %d %b %Y %H:%M:%S %z').isoformat()`:
the directive-by-directive match of CPython's generated regex
(full-string match) followed by the `datetime` constructor's range
validation.  `none` is any raised `ValueError`. -/
def strptimeRFC (inp : List Char) : Option String :=
  match parseDMY inp with
  | none => none
  | some dmy =>
    match (ws1 dmy.2.2.2).bind parseHMS with
    | none => none
    | some hms =>
      match (ws1 hms.2.2.2).bind parseZone with
      | none => none
      | some zr =>
        let day := dmy.1
        let month := dmy.2.1
        let year := dmy.2.2.1
        let second := hms.2.2.1
        if zr.2 ≠ [] ∨ year = 0 ∨ day > daysInMonth year month ∨
            second > 59 ∨ zr.1.natAbs ≥ 86400 then none
        else some (renderIso year month day hms.1 hms.2.1 second zr.1)

/-- Date-header parsing as performed inside `extract_message_metadata`:
strip everything from the first `" ("`, strip surrounding whitespace, then
strptime with the RFC-2822-like pattern. -/
def parse_date_header (raw : String) : Option String :=
  strptimeRFC (stripChars (splitParenAux raw.data))

/-! ## extract_message_metadata (gmail_retriever.py, lines 149-205) -/

/-- The metadata dict: its keys are fixed by the single return statement of
the source (`from_` and `to_` stand for the Python keys `'from'` and
`'to'`, which Lean reserves). -/
structure Metadata where
  id : String
  thread_id : String
  labels : List String
  snippet : String
  from_ : String
  to_ : String
  cc : String
  bcc : String
  subject : String
  date : Option String
  date_raw : String
  attachments : List Attachment
  attachment_count : Nat

def extract_message_metadata (m : Message) : Metadata :=
  let headers : List Header := match m.payload with
    | some p => p.headers.getD []
    | none => []
  let hd := headerLookup headers
  let attachments : List Attachment := match m.payload with
    | some p => find_attachments p
    | none => []
  let date_str := (hd "Date").getD ""
  let parsed_date : Option String :=
    if date_str = "" then none
    else match parse_date_header date_str with
      | some iso => some iso
      | none => some date_str
  { id := m.id,
    thread_id := m.threadId,
    labels := m.labelIds.getD [],
    snippet := m.snippet.getD "",
    from_ := (hd "From").getD "",
    to_ := (hd "To").getD "",
    cc := (hd "Cc").getD "",
    bcc := (hd "Bcc").getD "",
    subject := (hd "Subject").getD "",
    date := parsed_date,
    date_raw := date_str,
    attachments := attachments,
    attachment_count := attachments.length }

/-! ## Export file model (gmail_retriever.py, lines 207-347)

The local filesystem is a map from filename to file content.  Contents are
kept structured: JSON dumps keep the message list, the CSV file keeps its
header and dict rows, the text file its rendered string.  `blank` is a file
that was opened in `'w'` mode (created or truncated) with nothing written
to it.  Write failures, which the source catches per call, are modelled by
a success oracle per filename; a failed call leaves the filesystem as it
was and prints the error report. -/

def csvFieldnames : List String :=
  ["id", "thread_id", "labels", "snippet", "from", "to", "cc", "bcc",
   "subject", "date", "date_raw", "attachments", "attachment_count",
   "body_preview"]

/-- One `writer.writerow` dict: the metadata of the message plus the
`body_preview` entry. -/
structure CsvRow where
  meta : Metadata
  body_preview : String

/-- Row construction of `save_messages_csv` (lines 243-248). -/
def csvRowOf (m : Message) : CsvRow :=
  let body := extract_email_body m
  { meta := extract_message_metadata m,
    body_preview := if body.length > 200 then body.take 200 ++ "..." else body }

inductive FileContent : Type where
  | blank
  | jsonFile (messages : List Message)
  | csvFile (header : List String) (rows : List CsvRow)
  | textFile (content : String)

def FS : Type := String → Option FileContent

def fsUpdate (fs : FS) (k : String) (v : FileContent) : FS :=
  fun x => if x = k then some v else fs x

def fsEmpty : FS := fun _ => none

/-- `save_messages_json`: a JSON array of the untouched message dicts. -/
def save_messages_json (messages : List Message) (filename : String)
    (ok : Bool) (fs : FS) : FS × List String :=
  if ok then
    (fsUpdate fs filename (.jsonFile messages),
     ["Saved " ++ toString messages.length ++ " messages to " ++ filename])
  else (fs, ["Error saving to JSON"])

/-- `save_messages_csv`: the file is opened in `'w'` mode (creating or
truncating it) BEFORE the emptiness test, so an empty input leaves a blank
file behind; a non-empty input writes the header derived from the first
message's metadata keys plus `body_preview`, then one row per message. -/
def save_messages_csv (messages : List Message) (filename : String)
    (ok : Bool) (fs : FS) : FS × List String :=
  if ¬ ok then (fs, ["Error saving to CSV"])
  else if messages.isEmpty then
    (fsUpdate fs filename .blank, ["No messages to save"])
  else
    (fsUpdate fs filename (.csvFile csvFieldnames (messages.map csvRowOf)),
     ["Saved " ++ toString messages.length ++ " messages to " ++ filename])

def bannerEq : String := String.mk (List.replicate 60 '=')

def bannerDash : String := String.mk (List.replicate 40 '-')

/-- Python string interpolation of an optional value (`None` prints as the
literal `None`). -/
def optDisplay (o : Option String) : String :=
  match o with
  | some s => s
  | none => "None"

/-- One block of the text export (lines 264-280). -/
def textBlock (total i : Nat) (m : Message) : String :=
  let md := extract_message_metadata m
  let body := extract_email_body m
  bannerEq ++ "\n" ++ "MESSAGE " ++ toString i ++ " of " ++ toString total ++
    "\n" ++ bannerEq ++ "\n" ++
    "ID: " ++ md.id ++ "\n" ++ "From: " ++ md.from_ ++ "\n" ++
    "To: " ++ md.to_ ++ "\n" ++ "Subject: " ++ md.subject ++ "\n" ++
    "Date: " ++ optDisplay md.date ++ "\n" ++
    (if md.attachments.isEmpty then ""
     else "Attachments: " ++ toString md.attachments.length ++ " files\n") ++
    "\nBody:\n" ++ bannerDash ++ "\n" ++ body ++ "\n\n"

def textRender (messages : List Message) : String :=
  String.join (messages.enum.map (fun pr => textBlock messages.length (pr.1 + 1) pr.2))

/-- `save_messages_text`. -/
def save_messages_text (messages : List Message) (filename : String)
    (ok : Bool) (fs : FS) : FS × List String :=
  if ok then
    (fsUpdate fs filename (.textFile (textRender messages)),
     ["Saved " ++ toString messages.length ++ " messages to " ++ filename])
  else (fs, ["Error saving to text"])

/-! ## Searcher (gmail_search.py, lines 40-117) -/

/-- The `format='metadata'` response for one message id: `threadId` and
`snippet` are accessed unconditionally, `headers` and `labelIds` through
`.get`. -/
structure MetaResponse where
  threadId : String
  snippet : String
  payloadHeaders : Option (List Header)
  labelIds : Option (List String)

/-- The dict built for one search hit (lines 99-108). -/
structure SearchItem where
  id : String
  thread_id : String
  snippet : String
  from_ : String
  to_ : String
  subject : String
  date : String
  labels : List String
deriving DecidableEq, Repr

/-- `message_info` construction: missing headers default to `'Unknown'`
(From, To, Date) or `'No Subject'` (Subject). -/
def buildSearchItem (mid : String) (d : MetaResponse) : SearchItem :=
  let hd := headerLookup (d.payloadHeaders.getD [])
  { id := mid,
    thread_id := d.threadId,
    snippet := d.snippet,
    from_ := (hd "From").getD "Unknown",
    to_ := (hd "To").getD "Unknown",
    subject := (hd "Subject").getD "No Subject",
    date := (hd "Date").getD "Unknown",
    labels := d.labelIds.getD [] }

/-- `GmailSearcher.search`, with the remote service abstracted: `listedIds`
is the id list the `messages().list` call returned and `metaOracle` the
per-id `format='metadata'` response.  An empty list short-circuits; the
remote-failure path of the source likewise returns `[]`. -/
def search (listedIds : List String) (metaOracle : String → MetaResponse) :
    List SearchItem :=
  if listedIds.isEmpty then []
  else listedIds.map (fun mid => buildSearchItem mid (metaOracle mid))

/-! ## export_search_results (gmail_retriever.py, lines 286-347) -/

/-- `get_multiple_messages`: fetch each id in order, skipping failures. -/
def get_multiple_messages (fetch : String → Option Message)
    (message_ids : List String) : List Message :=
  message_ids.filterMap fetch

inductive SVal : Type where
  | s (v : String)
  | n (v : Nat)
  | strList (v : List String)
deriving DecidableEq, Repr

/-- Result of one export run: the summary dict (an association list, so
that exactly the keys the source puts in are present), the filesystem
afterwards, and the ids whose retrieval was attempted. -/
structure ExportOutcome where
  summary : List (String × SVal)
  fs : FS
  fetchedIds : List String

/-- `export_search_results` with the remote pieces abstracted: `searchFn`
stands for the searcher bound to this retriever's authenticator, `fetch`
for the per-id full fetch, `ts` for `datetime.now().strftime`, `writeOk`
for the per-file write outcome. -/
def export_search_results (search_query : String) (max_results : Nat)
    ( output_prefix : String) (searchFn : String → Nat → List SearchItem)
    (fetch : String → Option Message) (ts : String)
    (writeOk : String → Bool) (fs : FS) : ExportOutcome :=
  let search_results := searchFn search_query max_results
  if search_results.isEmpty then
    { summary := [("message_count", SVal.n 0), ("files_created", SVal.strList [])],
      fs := fs,
      fetchedIds := [] }
  else
    let message_ids := search_results.map (fun r => r.id)
    let full_messages := get_multiple_messages fetch message_ids
    let json_file := output_prefix ++ "_" ++ ts ++ ".json"
    let csv_file := output_prefix ++ "_" ++ ts ++ ".csv"
    let text_file := output_prefix ++ "_" ++ ts ++ ".txt"
    let fs1 := (save_messages_json full_messages json_file (writeOk json_file) fs).1
    let fs2 := (save_messages_csv full_messages csv_file (writeOk csv_file) fs1).1
    let fs3 := (save_messages_text full_messages text_file (writeOk text_file) fs2).1
    { summary := [("search_query", SVal.s search_query),
                  ("message_count", SVal.n full_messages.length),
                  ("files_created", SVal.strList [json_file, csv_file, text_file]),
                  ("timestamp", SVal.s ts)],
      fs := fs3,
      fetchedIds := message_ids }

/-! ## Authenticator (gmail_auth.py, lines 35-78) -/

/-- Truthiness-level view of a stored Google credential. -/
structure Creds where
  valid : Bool
  expired : Bool
  refresh_token : Bool
deriving DecidableEq, Repr

/-- The handle `build('gmail', 'v1', credentials=creds)` returns. -/
structure GmailService where
  creds : Creds
deriving DecidableEq, Repr

structure AuthState where
  credentials_file : String
  token_file : String
  service : Option GmailService
deriving DecidableEq, Repr

inductive AuthError : Type where
  | fileNotFound (msg : String)
deriving DecidableEq, Repr

/-- External dependencies of `authenticate`: the filesystem probe, the
pickle load of the token store, the token refresh round-trip (left:
`RefreshError`), and the interactive consent flow. -/
structure AuthEnv where
  fileExists : String → Bool
  loadToken : String → Creds
  refreshCreds : Creds → Except Unit Creds
  oauthFlowCreds : Creds

/-- Observable effects of one `authenticate` call: token-store writes and
remote operations, in order. -/
structure AuthEffects where
  tokenWrites : List (String × Creds)
  networkOps : List String
deriving DecidableEq, Repr

structure AuthResult where
  result : Except AuthError GmailService
  state : AuthState
  effects : AuthEffects

/-- The tail of every successful path: `_save_token` when requested, then
`build` and caching of the service handle. -/
def authFinish (st : AuthState) (c : Creds) (writes : List (String × Creds))
    (net : List String) : AuthResult :=
  { result := .ok ⟨c⟩,
    state := { st with service := some ⟨c⟩ },
    effects := { tokenWrites := writes, networkOps := net } }

/-- `GmailAuthenticator.authenticate`: missing credentials file raises
before anything else happens; otherwise load, refresh-or-consent, persist,
build.  The catch around `creds.refresh` handles exactly `RefreshError`. -/
def authenticate (env : AuthEnv) (st : AuthState) : AuthResult :=
  if ¬ env.fileExists st.credentials_file then
    { result := .error (.fileNotFound ("Credentials file \x27" ++
        st.credentials_file ++
        "\x27 not found. Please download it from Google Cloud Console.")),
      state := st,
      effects := { tokenWrites := [], networkOps := [] } }
  else
    let creds0 : Option Creds :=
      if env.fileExists st.token_file then some (env.loadToken st.token_file)
      else none
    match creds0 with
    | some c =>
      if c.valid then authFinish st c [] []
      else if c.expired ∧ c.refresh_token then
        match env.refreshCreds c with
        | .ok c2 => authFinish st c2 [(st.token_file, c2)] ["refresh"]
        | .error _ =>
          authFinish st env.oauthFlowCreds
            [(st.token_file, env.oauthFlowCreds)] ["refresh", "oauth_flow"]
      else
        authFinish st env.oauthFlowCreds
          [(st.token_file, env.oauthFlowCreds)] ["oauth_flow"]
    | none =>
      authFinish st env.oauthFlowCreds
        [(st.token_file, env.oauthFlowCreds)] ["oauth_flow"]

/-! ## Concrete sample data used by witnesses and counterexamples -/

/-- A message whose payload is a plain part decoding to "A" followed by a
nested multipart containing a plain part decoding to "B". -/
def exampleAB : Message :=
  { id := "m1", threadId := "t1", labelIds := none, snippet := none,
    payload := some (Part.mk (some "multipart/mixed") none none none (some
      [Part.mk (some "text/plain") none none (some ⟨some "QQ==", none⟩) none,
       Part.mk (some "multipart/alternative") none none none (some
         [Part.mk (some "text/plain") none none (some ⟨some "Qg==", none⟩) none])])) }

/-- A part with a non-empty filename two multipart levels down. -/
def nestedAttachPart : Part :=
  Part.mk (some "application/pdf") (some "file.pdf") none (some ⟨none, some 123⟩) none

def nestedAttachRoot : Part :=
  Part.mk (some "multipart/mixed") none none none (some
    [Part.mk (some "multipart/alternative") none none none (some
      [nestedAttachPart])])

def msgNestedAttach : Message :=
  { id := "m2", threadId := "t2", labelIds := none, snippet := none,
    payload := some nestedAttachRoot }

/-- A single-part message whose root payload itself carries a filename. -/
def rootAttachPart : Part :=
  Part.mk (some "application/pdf") (some "report.pdf") none (some ⟨none, some 5⟩) none

def msgRootAttach : Message :=
  { id := "m3", threadId := "t3", labelIds := none, snippet := none,
    payload := some rootAttachPart }

def msgWithDate (d : String) : Message :=
  { id := "m4", threadId := "t4", labelIds := none, snippet := none,
    payload := some (Part.mk none none (some [⟨"Date", d⟩]) none none) }

def msgNoHeaders : Message :=
  { id := "m5", threadId := "t5", labelIds := none, snippet := none,
    payload := some (Part.mk none none (some []) none none) }

/-- Sample search hit and fetched message for export witnesses. -/
def itemA : SearchItem :=
  { id := "id1", thread_id := "t1", snippet := "s", from_ := "a@b",
    to_ := "c@d", subject := "hello",
    date := "Mon, 02 Jan 2023 15:04:05 +0000", labels := [] }

def msgA : Message :=
  { id := "id1", threadId := "t1", labelIds := some ["INBOX"],
    snippet := some "s",
    payload := some (Part.mk (some "text/plain") none
      (some [⟨"From", "a@b"⟩]) (some ⟨some "QQ==", none⟩) none) }

/-- A metadata response carrying no headers at all. -/
def emptyMetaResponse : MetaResponse :=
  { threadId := "t6", snippet := "sn", payloadHeaders := some [], labelIds := none }

/-! ## Characterisation of the attachment walk -/

mutual

/-- `find_attachments` collects exactly the strict descendants with a
non-empty filename, in pre-order. -/
theorem find_attachments_eq : ∀ p : Part,
    find_attachments p = ((partDescendants p).filter hasAttFilename).map attachRecord
  | .mk mt fn hs b none => by
      simp [find_attachments, partDescendants]
  | .mk mt fn hs b (some ps) => by
      simp only [find_attachments, partDescendants]
      exact findAttachmentsList_eq ps

theorem findAttachmentsList_eq : ∀ l : List Part,
    findAttachmentsList l = ((partListDescendants l).filter hasAttFilename).map attachRecord
  | [] => by simp [findAttachmentsList, partListDescendants]
  | p :: rest => by
      simp only [findAttachmentsList, partListDescendants, List.filter_cons,
        List.filter_append, List.map_append,
        find_attachments_eq p, findAttachmentsList_eq rest]
      cases hf : hasAttFilename p <;> simp [hf]

end

/-! ## Shared lemmas about the export orchestration -/

theorem export_summary_of_empty (q : String) (mr : Nat) (pre : String)
    (sf : String → Nat → List SearchItem) (fetch : String → Option Message)
    (ts : String) (ok : String → Bool) (fs : FS) (h : sf q mr = []) :
    export_search_results q mr pre sf fetch ts ok fs =
      { summary := [("message_count", SVal.n 0), ("files_created", SVal.strList [])],
        fs := fs, fetchedIds := [] } := by
  simp [export_search_results, h]

theorem export_summary_of_nonempty (q : String) (mr : Nat) (pre : String)
    (sf : String → Nat → List SearchItem) (fetch : String → Option Message)
    (ts : String) (ok : String → Bool) (fs : FS) (h : sf q mr ≠ []) :
    (export_search_results q mr pre sf fetch ts ok fs).summary =
      [("search_query", SVal.s q),
       ("message_count",
         SVal.n (((sf q mr).map (fun r => r.id)).filterMap fetch).length),
       ("files_created", SVal.strList
         [pre ++ "_" ++ ts ++ ".json", pre ++ "_" ++ ts ++ ".csv",
          pre ++ "_" ++ ts ++ ".txt"]),
       ("timestamp", SVal.s ts)] := by
  simp [export_search_results, get_multiple_messages, h]

/-! ## Claim theorems -/

/-- Claim C1 (code bug in the source): `save_messages_csv` on an empty
message list does report "No messages to save", but it opens the file in
write mode before the emptiness check, so a blank file is created at the
given filename: the filesystem is NOT unchanged. -/
theorem c1_save_csv_empty_creates_blank_file :
    (save_messages_csv [] "out.csv" true fsEmpty).1 "out.csv" = some FileContent.blank ∧
    fsEmpty "out.csv" = none ∧
    (save_messages_csv [] "out.csv" true fsEmpty).2 = ["No messages to save"] := by
  refine ⟨?_, rfl, rfl⟩
  simp [save_messages_csv, fsUpdate]

/-- Claim C2, counterexample: on the zero-hit path the summary dict lacks
the `search_query` and `timestamp` keys, so it does not contain all four
ExportSummary fields. -/
theorem c2_zero_hit_summary_lacks_fields :
    ((export_search_results "q" 100 "gmail_export" (fun _ _ => [])
        (fun _ => none) "20230101_000000" (fun _ => true) fsEmpty).summary.lookup
        "search_query" = none) ∧
    ((export_search_results "q" 100 "gmail_export" (fun _ _ => [])
        (fun _ => none) "20230101_000000" (fun _ => true) fsEmpty).summary.lookup
        "timestamp" = none) := by
  exact ⟨rfl, rfl⟩

/-- Claim C2 (amended): the summary returned by `export_search_results`
contains all four fields — query, message count, file list, timestamp — on
every path where the search matched at least one hit; on the zero-hit path
it contains only `message_count` (0) and `files_created` ([]). -/
theorem c2_summary_fields (q : String) (mr : Nat) (pre : String)
    (sf : String → Nat → List SearchItem) (fetch : String → Option Message)
    (ts : String) (ok : String → Bool) (fs : FS) :
    (sf q mr = [] →
      (export_search_results q mr pre sf fetch ts ok fs).summary =
        [("message_count", SVal.n 0), ("files_created", SVal.strList [])]) ∧
    (sf q mr ≠ [] →
      (export_search_results q mr pre sf fetch ts ok fs).summary =
        [("search_query", SVal.s q),
         ("message_count",
           SVal.n (((sf q mr).map (fun r => r.id)).filterMap fetch).length),
         ("files_created", SVal.strList
           [pre ++ "_" ++ ts ++ ".json", pre ++ "_" ++ ts ++ ".csv",
            pre ++ "_" ++ ts ++ ".txt"]),
         ("timestamp", SVal.s ts)]) := by
  constructor
  · intro h
    exact congrArg ExportOutcome.summary
      (export_summary_of_empty q mr pre sf fetch ts ok fs h)
  · intro h
    exact export_summary_of_nonempty q mr pre sf fetch ts ok fs h

/-- Witness for C2: a one-hit search produces the full four-field summary. -/
theorem c2_summary_fields_witness :
    (export_search_results "is:inbox" 5 "pre" (fun _ _ => [itemA])
        (fun _ => some msgA) "20230102_030405" (fun _ => true) fsEmpty).summary =
      [("search_query", SVal.s "is:inbox"),
       ("message_count",
         SVal.n ((([itemA].map (fun r => r.id)).filterMap
           (fun _ => some msgA)).length)),
       ("files_created", SVal.strList
         ["pre" ++ "_" ++ "20230102_030405" ++ ".json",
          "pre" ++ "_" ++ "20230102_030405" ++ ".csv",
          "pre" ++ "_" ++ "20230102_030405" ++ ".txt"]),
       ("timestamp", SVal.s "20230102_030405")] := by
  exact (c2_summary_fields "is:inbox" 5 "pre" (fun _ _ => [itemA])
    (fun _ => some msgA) "20230102_030405" (fun _ => true) fsEmpty).2 (by simp)

/-- Claim C7: when the search returns zero hits, `export_search_results`
short-circuits with a zero-count, empty-file-list summary, attempts no
retrieval and leaves the filesystem untouched. -/
theorem c7_zero_hits_short_circuit (q : String) (mr : Nat) (pre : String)
    (sf : String → Nat → List SearchItem) (fetch : String → Option Message)
    (ts : String) (ok : String → Bool) (fs : FS)
    (h : sf q mr = []) :
    (export_search_results q mr pre sf fetch ts ok fs).summary =
      [("message_count", SVal.n 0), ("files_created", SVal.strList [])] ∧
    (export_search_results q mr pre sf fetch ts ok fs).fs = fs ∧
    (export_search_results q mr pre sf fetch ts ok fs).fetchedIds = [] := by
  rw [export_summary_of_empty q mr pre sf fetch ts ok fs h]
  exact ⟨rfl, rfl, rfl⟩

/-- Witness for C7 at a concrete zero-hit search. -/
theorem c7_zero_hits_short_circuit_witness :
    (export_search_results "from:x" 100 "gmail_export" (fun _ _ => [])
        (fun _ => some msgA) "20230101_000000" (fun _ => true) fsEmpty).summary =
      [("message_count", SVal.n 0), ("files_created", SVal.strList [])] ∧
    (export_search_results "from:x" 100 "gmail_export" (fun _ _ => [])
        (fun _ => some msgA) "20230101_000000" (fun _ => true) fsEmpty).fs = fsEmpty ∧
    (export_search_results "from:x" 100 "gmail_export" (fun _ _ => [])
        (fun _ => some msgA) "20230101_000000" (fun _ => true) fsEmpty).fetchedIds = [] :=
  c7_zero_hits_short_circuit "from:x" 100 "gmail_export" (fun _ _ => [])
    (fun _ => some msgA) "20230101_000000" (fun _ => true) fsEmpty rfl

/-- Claim C8: a missing credentials file makes `authenticate` fail with the
not-found error carrying the remediation message, with no network
operation, no token-store write, and the state unchanged. -/
theorem c8_missing_credentials (env : AuthEnv) (st : AuthState)
    (h : env.fileExists st.credentials_file = false) :
    (authenticate env st).result = .error (.fileNotFound ("Credentials file \x27" ++
      st.credentials_file ++
      "\x27 not found. Please download it from Google Cloud Console.")) ∧
    (authenticate env st).state = st ∧
    (authenticate env st).effects.tokenWrites = [] ∧
    (authenticate env st).effects.networkOps = [] := by
  simp [authenticate, h]

/-- Witness for C8: a concrete environment where no file exists. -/
theorem c8_missing_credentials_witness :
    ((authenticate
        { fileExists := fun _ => false,
          loadToken := fun _ => ⟨true, false, false⟩,
          refreshCreds := fun c => .ok c,
          oauthFlowCreds := ⟨true, false, true⟩ }
        { credentials_file := "credentials.json", token_file := "token.pickle",
          service := none }).result =
      .error (.fileNotFound ("Credentials file \x27" ++ "credentials.json" ++
        "\x27 not found. Please download it from Google Cloud Console."))) ∧
    ((authenticate
        { fileExists := fun _ => false,
          loadToken := fun _ => ⟨true, false, false⟩,
          refreshCreds := fun c => .ok c,
          oauthFlowCreds := ⟨true, false, true⟩ }
        { credentials_file := "credentials.json", token_file := "token.pickle",
          service := none }).effects.tokenWrites = []) := by
  have h := c8_missing_credentials
    { fileExists := fun _ => false,
      loadToken := fun _ => ⟨true, false, false⟩,
      refreshCreds := fun c => .ok c,
      oauthFlowCreds := ⟨true, false, true⟩ }
    { credentials_file := "credentials.json", token_file := "token.pickle",
      service := none } rfl
  exact ⟨h.1, h.2.2.1⟩

/-- Claim C9: whenever the search returned at least one hit, the summary's
`files_created` holds exactly the three `{prefix}_{timestamp}.{json,csv,txt}`
paths in that order with one shared timestamp, independently of whether any
of the three writes succeeded. -/
theorem c9_files_created_unconditional (q : String) (mr : Nat) (pre : String)
    (sf : String → Nat → List SearchItem) (fetch : String → Option Message)
    (ts : String) (ok : String → Bool) (fs : FS)
    (h : sf q mr ≠ []) :
    (export_search_results q mr pre sf fetch ts ok fs).summary.lookup
        "files_created" =
      some (SVal.strList [pre ++ "_" ++ ts ++ ".json", pre ++ "_" ++ ts ++ ".csv",
        pre ++ "_" ++ ts ++ ".txt"]) ∧
    (export_search_results q mr pre sf fetch ts ok fs).summary.lookup
        "timestamp" = some (SVal.s ts) := by
  rw [export_summary_of_nonempty q mr pre sf fetch ts ok fs h]
  exact ⟨rfl, rfl⟩

/-- Witness for C9: with a one-hit search and every write FAILING, the
three paths are still reported. -/
theorem c9_files_created_unconditional_witness :
    (export_search_results "is:inbox" 5 "out" (fun _ _ => [itemA])
        (fun _ => some msgA) "20230102_030405" (fun _ => false) fsEmpty).summary.lookup
        "files_created" =
      some (SVal.strList ["out" ++ "_" ++ "20230102_030405" ++ ".json",
        "out" ++ "_" ++ "20230102_030405" ++ ".csv",
        "out" ++ "_" ++ "20230102_030405" ++ ".txt"]) ∧
    (export_search_results "is:inbox" 5 "out" (fun _ _ => [itemA])
        (fun _ => some msgA) "20230102_030405" (fun _ => false) fsEmpty).summary.lookup
        "timestamp" = some (SVal.s "20230102_030405") :=
  c9_files_created_unconditional "is:inbox" 5 "out" (fun _ _ => [itemA])
    (fun _ => some msgA) "20230102_030405" (fun _ => false) fsEmpty (by simp)

/-- Claim C3, counterexample: the root payload itself is a part of the
payload tree with a non-empty filename, yet `find_attachments` (which only
inspects the elements of `parts` lists) never records it: the claim as
stated fails at depth zero. -/
theorem c3_root_filename_not_recorded :
    hasAttFilename rootAttachPart = true ∧
    msgRootAttach.payload = some rootAttachPart ∧
    (extract_message_metadata msgRootAttach).attachments = [] ∧
    (extract_message_metadata msgRootAttach).attachment_count = 0 :=
  ⟨rfl, rfl, rfl, rfl⟩

/-- Claim C3 (amended): every part STRICTLY BELOW the root payload (an
element of some `parts` list, at any nesting depth) carrying a non-empty
filename is recorded in the attachments list with its filename, MIME type
(default empty string) and body size (default 0), and `attachment_count`
equals the length of that list. -/
theorem c3_nested_attachments_recorded (m : Message) (p q : Part)
    (hp : m.payload = some p) (hq : q ∈ partDescendants p)
    (hf : hasAttFilename q = true) :
    attachRecord q ∈ (extract_message_metadata m).attachments ∧
    (extract_message_metadata m).attachment_count =
      (extract_message_metadata m).attachments.length := by
  have ha : (extract_message_metadata m).attachments = find_attachments p := by
    simp [extract_message_metadata, hp]
  constructor
  · rw [ha, find_attachments_eq]
    exact List.mem_map_of_mem _ (List.mem_filter.mpr ⟨hq, hf⟩)
  · simp [extract_message_metadata, hp]

/-- Witness for C3: the attachment two multipart levels down is recorded. -/
theorem c3_nested_attachments_recorded_witness :
    attachRecord nestedAttachPart ∈
      (extract_message_metadata msgNestedAttach).attachments ∧
    (extract_message_metadata msgNestedAttach).attachment_count =
      (extract_message_metadata msgNestedAttach).attachments.length :=
  c3_nested_attachments_recorded msgNestedAttach nestedAttachRoot nestedAttachPart
    rfl (by simp [nestedAttachRoot, partDescendants, partListDescendants]) rfl

/-- Claim C4: `extract_email_body` concatenates in depth-first pre-order —
a part's own decoded text (base64url-decoded UTF-8 for `text/plain`, with
undecodable bytes replaced by U+FFFD rather than failing) comes before its
children's text — and the plain-A / nested-plain-B example yields "AB". -/
theorem c4_preorder_body_extraction :
    (∀ (mt fn : Option String) (hs : Option (List Header)) (b : Option PartBody)
        (ps : Option (List Part)),
      extract_from_payload (Part.mk mt fn hs b ps) =
        partOwnText mt b ++ extractParts ps) ∧
    (∀ (p : Part) (rest : List Part),
      extractPartsList (p :: rest) =
        extract_from_payload p ++ extractPartsList rest) ∧
    decode_base64 "QQ==" = "A" ∧
    decode_base64 "wQ==" = String.mk [replacementChar] ∧
    extract_email_body exampleAB = "AB" :=
  ⟨fun _ _ _ _ _ => rfl, fun _ _ => rfl, rfl, rfl, rfl⟩

/-- Claim C5: the date handling of `extract_message_metadata` is a total
three-way function of the Date header: `date_raw` is always the raw header
(empty string when absent); an absent/empty header gives `date = none`; a
header that parses against the RFC-2822-like pattern (after stripping the
trailing parenthetical comment) gives its ISO-8601 rendering; any parse
failure gives back the raw header string, no error being raised. -/
theorem c5_date_trichotomy (m : Message) :
    ((extract_message_metadata m).date_raw =
      ((headerLookup (match m.payload with
          | some p => p.headers.getD []
          | none => []) "Date").getD "")) ∧
    ((extract_message_metadata m).date_raw = "" →
      (extract_message_metadata m).date = none) ∧
    (∀ iso : String, (extract_message_metadata m).date_raw ≠ "" →
      parse_date_header (extract_message_metadata m).date_raw = some iso →
      (extract_message_metadata m).date = some iso) ∧
    ((extract_message_metadata m).date_raw ≠ "" →
      parse_date_header (extract_message_metadata m).date_raw = none →
      (extract_message_metadata m).date = some (extract_message_metadata m).date_raw) := by
  have hraw : (extract_message_metadata m).date_raw =
      ((headerLookup (match m.payload with
          | some p => p.headers.getD []
          | none => []) "Date").getD "") := by
    simp [extract_message_metadata]
  have hdate : (extract_message_metadata m).date =
      (if (extract_message_metadata m).date_raw = "" then none
       else match parse_date_header (extract_message_metadata m).date_raw with
         | some iso => some iso
         | none => some (extract_message_metadata m).date_raw) := by
    rw [hraw]
    simp [extract_message_metadata]
  refine ⟨hraw, ?_, ?_, ?_⟩
  · intro h0
    rw [hdate, if_pos h0]
  · intro iso hne hparse
    rw [hdate, if_neg hne, hparse]
  · intro hne hparse
    rw [hdate, if_neg hne, hparse]

/-- Witness for C5: the three branches at concrete Date headers. -/
theorem c5_date_trichotomy_witness :
    (extract_message_metadata (msgWithDate "Mon, 02 Jan 2023 15:04:05 +0000")).date =
      some "2023-01-02T15:04:05+00:00" ∧
    (extract_message_metadata (msgWithDate "not a real date")).date =
      some "not a real date" ∧
    (extract_message_metadata msgNoHeaders).date = none ∧
    (extract_message_metadata msgNoHeaders).date_raw = "" := by
  refine ⟨?_, ?_, ?_, ?_⟩
  · exact (c5_date_trichotomy (msgWithDate "Mon, 02 Jan 2023 15:04:05 +0000")).2.2.1
      "2023-01-02T15:04:05+00:00" (by decide) (by decide)
  · exact (c5_date_trichotomy (msgWithDate "not a real date")).2.2.2
      (by decide) (by decide)
  · exact (c5_date_trichotomy msgNoHeaders).2.1 (by decide)
  · exact (c5_date_trichotomy msgNoHeaders).1.trans (by decide)

/-- Claim C6: in every CSV row written by `save_messages_csv`, the
`body_preview` entry is the full extracted body when its length is at most
200 characters, and exactly the first 200 characters followed by the
literal `...` when the body is strictly longer. -/
theorem c6_body_preview_truncation (messages : List Message) (filename : String)
    (fs : FS) (hne : messages ≠ []) :
    (save_messages_csv messages filename true fs).1 filename =
      some (FileContent.csvFile csvFieldnames (messages.map csvRowOf)) ∧
    ∀ m ∈ messages,
      ((extract_email_body m).length ≤ 200 →
        (csvRowOf m).body_preview = extract_email_body m) ∧
      ((extract_email_body m).length > 200 →
        (csvRowOf m).body_preview = (extract_email_body m).take 200 ++ "...") := by
  constructor
  · simp [save_messages_csv, hne, fsUpdate]
  · intro m _
    constructor
    · intro hle
      have hnot : ¬ ((extract_email_body m).length > 200) := Nat.not_lt.mpr hle
      simp [csvRowOf, hnot]
    · intro hgt
      simp [csvRowOf, hgt]

/-- A base64url payload decoding to 201 copies of "A". -/
def longB64 : String := String.join (List.replicate 67 "QUFB")

def msgLong : Message :=
  { id := "m7", threadId := "t7", labelIds := none, snippet := none,
    payload := some (Part.mk (some "text/plain") none none
      (some ⟨some longB64, none⟩) none) }

set_option maxRecDepth 40000 in
/-- Witness for C6: a 201-character body is cut to 200 characters plus
`...`; a 2-character body is passed through unchanged. -/
theorem c6_body_preview_truncation_witness :
    (csvRowOf msgLong).body_preview =
      String.mk (List.replicate 200 'A') ++ "..." ∧
    (csvRowOf exampleAB).body_preview = "AB" := by
  have h := (c6_body_preview_truncation [msgLong, exampleAB] "f.csv" fsEmpty
    (by simp)).2
  constructor
  · have h1 := (h msgLong (by simp)).2 (by decide)
    rw [h1]
    decide
  · have h2 := (h exampleAB (by simp)).1 (by decide)
    rw [h2]
    decide

/-- Claim C10: for a metadata response lacking a From, To, Subject or Date
header, the item built inside `GmailSearcher.search` carries the
placeholder `'Unknown'` (From, To, Date) or `'No Subject'` (Subject) —
never the empty string — whereas `extract_message_metadata` defaults the
same missing headers to empty strings (and the parsed date to `none`). -/
theorem c10_search_placeholder_defaults (hs : List Header) (mid : String)
    (d : MetaResponse) (hd : d.payloadHeaders = some hs)
    (m : Message) (p : Part) (hp : m.payload = some p)
    (hph : p.headers = some hs) :
    (headerLookup hs "From" = none →
      (buildSearchItem mid d).from_ = "Unknown" ∧
      (extract_message_metadata m).from_ = "") ∧
    (headerLookup hs "To" = none →
      (buildSearchItem mid d).to_ = "Unknown" ∧
      (extract_message_metadata m).to_ = "") ∧
    (headerLookup hs "Subject" = none →
      (buildSearchItem mid d).subject = "No Subject" ∧
      (extract_message_metadata m).subject = "") ∧
    (headerLookup hs "Date" = none →
      (buildSearchItem mid d).date = "Unknown" ∧
      (extract_message_metadata m).date_raw = "" ∧
      (extract_message_metadata m).date = none) ∧
    ("Unknown" ≠ "" ∧ "No Subject" ≠ "") ∧
    (∀ (listedIds : List String) (oracle : String → MetaResponse),
      mid ∈ listedIds → oracle mid = d →
      buildSearchItem mid d ∈ search listedIds oracle) := by
  refine ⟨?_, ?_, ?_, ?_, ⟨by decide, by decide⟩, ?_⟩
  · intro h
    exact ⟨by simp [buildSearchItem, hd, h],
      by simp [extract_message_metadata, hp, hph, h]⟩
  · intro h
    exact ⟨by simp [buildSearchItem, hd, h],
      by simp [extract_message_metadata, hp, hph, h]⟩
  · intro h
    exact ⟨by simp [buildSearchItem, hd, h],
      by simp [extract_message_metadata, hp, hph, h]⟩
  · intro h
    refine ⟨by simp [buildSearchItem, hd, h], ?_, ?_⟩
    · simp [extract_message_metadata, hp, hph, h]
    · simp [extract_message_metadata, hp, hph, h]
  · intro listedIds oracle hmem horacle
    cases listedIds with
    | nil => exact absurd hmem (by simp)
    | cons a t =>
      have hsearch : search (a :: t) oracle =
          (a :: t).map (fun x => buildSearchItem x (oracle x)) := by
        simp [search]
      rw [hsearch]
      exact List.mem_map.mpr ⟨mid, hmem, by rw [horacle]⟩

/-- Witness for C10 at a response with no headers. -/
theorem c10_search_placeholder_defaults_witness :
    (buildSearchItem "id9" emptyMetaResponse).from_ = "Unknown" ∧
    (buildSearchItem "id9" emptyMetaResponse).to_ = "Unknown" ∧
    (buildSearchItem "id9" emptyMetaResponse).subject = "No Subject" ∧
    (buildSearchItem "id9" emptyMetaResponse).date = "Unknown" ∧
    (extract_message_metadata msgNoHeaders).from_ = "" ∧
    (extract_message_metadata msgNoHeaders).subject = "" ∧
    buildSearchItem "id9" emptyMetaResponse ∈
      search ["id9"] (fun _ => emptyMetaResponse) := by
  have h := c10_search_placeholder_defaults [] "id9" emptyMetaResponse rfl
    msgNoHeaders (Part.mk none none (some []) none none) rfl rfl
  exact ⟨(h.1 rfl).1, (h.2.1 rfl).1, (h.2.2.1 rfl).1, (h.2.2.2.1 rfl).1,
    (h.1 rfl).2, (h.2.2.1 rfl).2,
    h.2.2.2.2.2 ["id9"] (fun _ => emptyMetaResponse) (by simp) rfl⟩

end GmailAssistant
